import Mathlib

/-!
Shallow embedding of the reactive UI core of the bevy_granite_ui repository
(src/ui/colors.rs, src/ui/shortcuts.rs, src/ui/mod.rs, src/ui/elements.rs,
src/ui/fullscreen.rs), together with theorems settling the frozen claims
about it.  Machine floats that the source only uses for exact small pixel
constants are embedded as integers; the viewport arithmetic on f32 is
embedded on the rationals.
-/

namespace BevyUi

/-- Concrete colors as they appear in the theme table of src/ui/colors.rs:
the named constants Color::WHITE / Color::BLACK and colors parsed from a hex
string via Srgba::hex(..).unwrap().into(). -/
inductive Color where
  | WHITE
  | BLACK
  | srgbaHex (hex : String)
deriving DecidableEq

/-- Semantic color roles (enum EditorColor, src/ui/colors.rs lines 3-19).
colors.rs declares fourteen variants; src/ui/elements.rs line 201 additionally
references EditorColor::FadedText for the menu-bar shortcut label, a variant
the declaration in colors.rs does not contain, so the embedding carries it as
a fifteenth variant in order to express the element bundles. -/
inductive EditorColor where
  | MenuBar
  | MenuBarButtonText
  | MenuBarButtonHover
  | MenuBarButtonHoverText
  | TabBar
  | Background
  | Text
  | TabHover
  | TabActive
  | Heading
  | HeadingText
  | Button
  | InputField
  | InputFieldText
  | FadedText
deriving DecidableEq

/-- HashMap::insert on the role-to-color table, modelled on an association
list: an existing key is overwritten in place, a new key is appended. -/
def insertColor (m : List (EditorColor × Color)) (k : EditorColor) (v : Color) :
    List (EditorColor × Color) :=
  if m.any (fun p => p.1 == k) then m.map (fun p => if p.1 == k then (k, v) else p)
  else m ++ [(k, v)]

/-- HashMap lookup on the role-to-color table.  The source indexes the map
directly (ui_colors.editor_colors[&color]), which panics on a missing key;
the embedding returns none there instead, so a none result marks exactly the
panic branch. -/
def lookupColor (m : List (EditorColor × Color)) (k : EditorColor) : Option Color :=
  (m.find? (fun p => p.1 == k)).map (fun p => p.2)

/-- UiColors::default (src/ui/colors.rs lines 27-46): the default theme table
built by the written-out sequence of inserts. -/
def defaultUiColors : List (EditorColor × Color) :=
  let m : List (EditorColor × Color) := []
  let m := insertColor m .MenuBar (.srgbaHex "#3B3B3B")
  let m := insertColor m .MenuBarButtonText .WHITE
  let m := insertColor m .MenuBarButtonHover (.srgbaHex "#2C2C2C")
  let m := insertColor m .MenuBarButtonHoverText .WHITE
  let m := insertColor m .TabBar (.srgbaHex "#2B2B2B")
  let m := insertColor m .Background (.srgbaHex "#1B1B1B")
  let m := insertColor m .Text .WHITE
  let m := insertColor m .TabHover (.srgbaHex "#353535")
  let m := insertColor m .TabActive (.srgbaHex "#1B1B1B")
  let m := insertColor m .Heading .WHITE
  let m := insertColor m .HeadingText .BLACK
  let m := insertColor m .Button (.srgbaHex "#0C0C0C")
  let m := insertColor m .InputField .WHITE
  let m := insertColor m .InputFieldText .BLACK
  m

/-- bevy_ui interaction state of a clickable node. -/
inductive Interaction where
  | None
  | Hovered
  | Pressed
deriving DecidableEq

/-- EditorTextColor (src/ui/colors.rs line 49): role triple
(base, hover?, pressed?) for a node's text color. -/
structure EditorTextColor where
  base : EditorColor
  hover : Option EditorColor
  pressed : Option EditorColor
deriving DecidableEq

/-- EditorBackgroundColor (src/ui/colors.rs line 52): role triple
(base, hover?, pressed?) for a node's background color. -/
structure EditorBackgroundColor where
  base : EditorColor
  hover : Option EditorColor
  pressed : Option EditorColor
deriving DecidableEq

/-- The text half of update_colors (src/ui/colors.rs lines 61-69): resolve the
role triple against the node's interaction state (absent when the node has no
Interaction component) and look the chosen role up in the theme table. -/
def update_text_color (ui_colors : List (EditorColor × Color))
    (interaction : Option Interaction) (c : EditorTextColor) : Option Color :=
  let color :=
    match interaction, c.hover, c.pressed with
    | some .Pressed, _, some clicked_color => clicked_color
    | some .Pressed, some hover_color, none => hover_color
    | some .Hovered, some hover_color, _ => hover_color
    | _, _, _ => c.base
  lookupColor ui_colors color

/-- The background half of update_colors (src/ui/colors.rs lines 70-78),
duplicating the same match as the source does. -/
def update_background_color (ui_colors : List (EditorColor × Color))
    (interaction : Option Interaction) (c : EditorBackgroundColor) : Option Color :=
  let color :=
    match interaction, c.hover, c.pressed with
    | some .Pressed, _, some clicked_color => clicked_color
    | some .Pressed, some hover_color, none => hover_color
    | some .Hovered, some hover_color, _ => hover_color
    | _, _, _ => c.base
  lookupColor ui_colors color

/-- add_colors (src/ui/colors.rs lines 83-95): on creation a node's color is
looked up from its base role alone. -/
def add_color (ui_colors : List (EditorColor × Color)) (base : EditorColor) :
    Option Color :=
  lookupColor ui_colors base

/-- The tool palette actions (src/ui/mod.rs lines 50-57; elements.rs refers to
this type as Tool). -/
inductive Tool where
  | Pointer
  | Move
  | Rotate
  | Scale
  | AddEntity
  | ImportFile
deriving DecidableEq

/-- The Logical UI Event vocabulary.  The enum declaration in src/ui/mod.rs
lines 33-44 lists OpenMenu, CloseMenus, SelectTab, CloseTab and the File
variants; src/ui/shortcuts.rs additionally references NextTab, PreviousTab,
Undo, Redo, ToggleFullscreen and ShowHelp, and src/ui/elements.rs references
SelectTool, so the embedding takes the union of the variants the source
files use. -/
inductive UiEvent where
  | OpenMenu (id : String)
  | CloseMenus
  | SelectTab (index : Nat)
  | CloseTab (index : Nat)
  | SelectTool (tool : Tool)
  | NextTab
  | PreviousTab
  | ToggleFullscreen
  | FileNew
  | FileOpen
  | FileSave
  | FileSaveAs
  | FileClose
  | FileExit
  | Undo
  | Redo
  | ShowHelp
deriving DecidableEq

/-- The physical keys the shortcut table mentions (a fragment of bevy's
KeyCode enum). -/
inductive KeyCode where
  | ControlLeft
  | ShiftLeft
  | AltLeft
  | SuperLeft
  | Tab
  | KeyN
  | KeyO
  | KeyS
  | KeyW
  | KeyQ
  | KeyZ
  | F1
  | F4
  | F11
deriving DecidableEq

/-- Shortcut (src/ui/shortcuts.rs line 29): the ordered key chord of one
table entry. -/
structure Shortcut where
  keys : List KeyCode
deriving DecidableEq

/-- Shortcuts::default (src/ui/shortcuts.rs lines 64-98), as the written-out
insertion sequence.  The one platform-conditional entry (FileExit) is resolved
at construction time from the macos flag, as in the source's cfg! check. -/
def defaultShortcuts (macos : Bool) : List (UiEvent × Shortcut) :=
  [ (.NextTab, ⟨[.ControlLeft, .Tab]⟩),
    (.PreviousTab, ⟨[.ControlLeft, .ShiftLeft, .Tab]⟩),
    (.FileNew, ⟨[.ControlLeft, .KeyN]⟩),
    (.FileOpen, ⟨[.ControlLeft, .KeyO]⟩),
    (.FileSave, ⟨[.ControlLeft, .KeyS]⟩),
    (.FileSaveAs, ⟨[.ControlLeft, .ShiftLeft, .KeyS]⟩),
    (.FileClose, ⟨[.ControlLeft, .KeyW]⟩),
    (.FileExit, if macos then ⟨[.SuperLeft, .KeyQ]⟩ else ⟨[.AltLeft, .F4]⟩),
    (.Undo, ⟨[.ControlLeft, .KeyZ]⟩),
    (.Redo, ⟨[.ControlLeft, .ShiftLeft, .KeyZ]⟩),
    (.ToggleFullscreen, ⟨[.F11]⟩),
    (.ShowHelp, ⟨[.F1]⟩) ]

/-- One tick's snapshot of the raw key feed (bevy's ButtonInput resource):
the set of currently-down keys and the set of keys that transitioned down
exactly this tick. -/
structure ButtonInputState where
  pressed : List KeyCode
  just_pressed : List KeyCode
deriving DecidableEq

/-- ButtonInput::all_pressed: every queried key is currently down. -/
def ButtonInputState.all_pressed (ks : ButtonInputState) (keys : List KeyCode) : Bool :=
  keys.all (fun k => ks.pressed.contains k)

/-- ButtonInput::any_just_pressed: at least one queried key transitioned
down this tick. -/
def ButtonInputState.any_just_pressed (ks : ButtonInputState) (keys : List KeyCode) : Bool :=
  keys.any (fun k => ks.just_pressed.contains k)

/-- The raw key feed's tick contract (spec section 6): given the keys down on
the previous tick and the keys down now, the just-pressed set is the keys
down now that were up before. -/
def keyTick (prev cur : List KeyCode) : ButtonInputState :=
  { pressed := cur, just_pressed := cur.filter (fun k => !prev.contains k) }

/-- handle_shortcuts (src/ui/shortcuts.rs lines 100-113): every table entry
whose entire chord is held and of which at least one key was just pressed
writes its event.  The HashMap iteration is modelled as the table list. -/
def handle_shortcuts (shortcuts : List (UiEvent × Shortcut))
    (keys : ButtonInputState) : List UiEvent :=
  (shortcuts.filter
      (fun p => keys.all_pressed p.2.keys && keys.any_just_pressed p.2.keys)).map
    (fun p => p.1)

/-- bevy's Visibility component (MenuBarDropdown nodes carry it). -/
inductive Visibility where
  | Inherited
  | Hidden
  | Visible
deriving DecidableEq

/-- The body of the event loop of menu_bar_dropdown_visibility
(src/ui/mod.rs lines 436-453) for a single event: OpenMenu shows exactly the
dropdowns with the matching id, every other event hides all dropdowns.  A
dropdown entity is modelled as its id paired with its Visibility. -/
def menuBarDropdownStep (dropdowns : List (String × Visibility)) (event : UiEvent) :
    List (String × Visibility) :=
  match event with
  | .OpenMenu id =>
      dropdowns.map (fun d => (d.1, if d.1 = id then Visibility.Visible else Visibility.Hidden))
  | _ => dropdowns.map (fun d => (d.1, Visibility.Hidden))

/-- menu_bar_dropdown_visibility (src/ui/mod.rs lines 431-455): the reader
drains this tick's events in order, applying the step for each. -/
def menu_bar_dropdown_visibility (dropdowns : List (String × Visibility))
    (events : List UiEvent) : List (String × Visibility) :=
  events.foldl menuBarDropdownStep dropdowns

/-- The initial dropdown state: MenuBarDropdown requires Visibility::Hidden
(src/ui/elements.rs line 140), so every freshly spawned dropdown is hidden. -/
def initialDropdowns (ids : List String) : List (String × Visibility) :=
  ids.map (fun id => (id, Visibility.Hidden))

/-- Recognizer for the OpenMenu variant. -/
def UiEvent.isOpenMenu : UiEvent → Bool
  | .OpenMenu _ => true
  | _ => false

/-- handle_ui_events (src/ui/mod.rs lines 457-466): a clickable entity is
given by its bound event together with its previous and current interaction
state for this tick; the Changed filter of the query is the interaction
feed's value-edge (the states differ), and the bound event is written when
the current state is Pressed. -/
def handle_ui_events (clickables : List (UiEvent × Interaction × Interaction)) :
    List UiEvent :=
  clickables.filterMap
    (fun ent =>
      if ent.2.1 == ent.2.2 then none
      else if ent.2.2 == Interaction.Pressed then some ent.1 else none)

/-- Modelled from the spec: the tab reducer of section 4.4 / section 8.  No
such reducer exists under src/ (UiPlugin::build in src/ui/mod.rs registers no
system consuming SelectTab, NextTab or PreviousTab into a current-tab state,
and the UiEvent declaration there even lacks NextTab and PreviousTab), so the
reducer step is taken from the spec's words: SelectTab(i) clamps i to
[0, count-1]; NextTab from an unset selection selects tab 0 (section 8's
concrete table) and otherwise advances modulo count; PreviousTab follows
section 4.4's formula (current - 1 + count) mod count, with an unset current
treated as 0; with a zero count the selection stays unset for every event and
nothing divides by zero. -/
def tab_reducer_step (count : Nat) (current : Option Nat) (event : UiEvent) :
    Option Nat :=
  if count = 0 then current
  else
    match event with
    | .SelectTab i => some (min i (count - 1))
    | .NextTab => some (match current with | none => 0 | some c => (c + 1) % count)
    | .PreviousTab =>
        some (match current with | none => count - 1 | some c => (c + count - 1) % count)
    | _ => current

/-- bevy_ui Display values the source uses. -/
inductive Display where
  | Flex
  | Block
  | None
deriving DecidableEq

/-- bevy_ui position type. -/
inductive PositionType where
  | Relative
  | Absolute
deriving DecidableEq

/-- bevy_ui layout length values.  Every pixel constant in the source is an
exact small float, embedded as an integer. -/
inductive Val where
  | Auto
  | Px (n : Int)
  | Percent (n : Int)
deriving DecidableEq

/-- bevy_ui AlignItems values the source uses. -/
inductive AlignItems where
  | Default
  | Center
deriving DecidableEq

/-- bevy_ui JustifyContent values the source uses. -/
inductive JustifyContent where
  | Default
  | Center
  | SpaceBetween
deriving DecidableEq

/-- bevy_ui JustifySelf values the source uses. -/
inductive JustifySelf where
  | Auto
  | End
deriving DecidableEq

/-- bevy_ui FlexDirection values the source uses. -/
inductive FlexDirection where
  | Row
  | Column
deriving DecidableEq

/-- bevy_ui UiRect: left, right, top, bottom. -/
structure UiRect where
  left : Val
  right : Val
  top : Val
  bottom : Val
deriving DecidableEq

/-- UiRect::all. -/
def UiRect.all (v : Val) : UiRect := ⟨v, v, v, v⟩

/-- bevy_ui Node, restricted to the style fields the source's bundles set;
the remaining fields keep Node::default's values. -/
structure NodeStyle where
  display : Display := .Flex
  position_type : PositionType := .Relative
  flex_direction : FlexDirection := .Row
  width : Val := .Auto
  height : Val := .Auto
  left : Val := .Auto
  top : Val := .Auto
  align_items : AlignItems := .Default
  justify_content : JustifyContent := .Default
  justify_self : JustifySelf := .Auto
  column_gap : Val := .Px 0
  row_gap : Val := .Px 0
  flex_grow : Int := 0
  padding : UiRect := UiRect.all (.Px 0)
deriving DecidableEq

/-- The ECS components the rebuilt subtrees carry.  Asset handles (icon
images) are opaque comparable tokens, embedded as naturals. -/
inductive Component where
  | editorUiElement
  | editorUi
  | button
  | node (style : NodeStyle)
  | clickAction (event : UiEvent)
  | editorBackgroundColor (base : EditorColor) (hover pressed : Option EditorColor)
  | editorTextColor (base : EditorColor) (hover pressed : Option EditorColor)
  | text (s : String)
  | textFont (size : Int)
  | borderRadius (tl tr bl br : Val)
  | backgroundColor (c : Color)
  | imageNode (icon : Nat)
deriving DecidableEq

/-- The ECS component type of a component value: a bevy entity stores at most
one component per type, and inserting a component overwrites the one of the
same type. -/
def componentKind : Component → Nat
  | .editorUiElement => 0
  | .editorUi => 1
  | .button => 2
  | .node _ => 3
  | .clickAction _ => 4
  | .editorBackgroundColor _ _ _ => 5
  | .editorTextColor _ _ _ => 6
  | .text _ => 7
  | .textFont _ => 8
  | .borderRadius _ _ _ _ => 9
  | .backgroundColor _ => 10
  | .imageNode _ => 11

/-- A grandchild node of a rebuilt subtree (the deepest nesting the bundles
reach): its component list. -/
structure LeafDesc where
  components : List Component
deriving DecidableEq

/-- A direct child node of a rebuilt subtree: its components and its own
children. -/
structure ChildDesc where
  components : List Component
  children : List LeafDesc
deriving DecidableEq

/-- A bundle as passed to EntityCommands::insert by a reactive rebuild: the
components inserted on the widget entity itself and the child subtree the
bundle's children![..] spawns under it. -/
structure BundleDesc where
  components : List Component
  children : List ChildDesc
deriving DecidableEq

/-- MenuBarButton data component (src/ui/elements.rs lines 67-73). -/
structure MenuBarButton where
  text : String
  shortcut_text : Option String
  is_in_submenu : Bool
  is_dropdown : Bool
deriving DecidableEq

/-- Tab data component (src/ui/elements.rs lines 225-230). -/
structure Tab where
  index : Nat
  name : String
  is_active : Bool
deriving DecidableEq

/-- ToolButton data component (src/ui/elements.rs lines 366-371). -/
structure ToolButton where
  action : Tool
  is_active : Bool
  icon : Nat
deriving DecidableEq

/-- StatusBar data component (src/ui/elements.rs lines 421-424). -/
structure StatusBar where
  text : String
deriving DecidableEq

/-- FpsCounter data component (src/ui/elements.rs lines 470-473); the f32
sample is already rendered from a whole number, embedded as a natural. -/
structure FpsCounter where
  fps : Option Nat
deriving DecidableEq

/-- The bundle the MenuBarButton rebuild produces (src/ui/elements.rs
lines 145-210). -/
def menuBarButtonBundle (b : MenuBarButton) : BundleDesc :=
  { components :=
      [ .editorUiElement,
        .button,
        .node { display := .Flex,
                height := if b.is_in_submenu then .Px 26 else .Px 29,
                align_items := .Center,
                justify_content := .SpaceBetween,
                column_gap := .Px 10,
                padding := if b.is_in_submenu then UiRect.all (.Px 5)
                           else ⟨.Px 15, .Px 15, .Px 6, .Px 6⟩ },
        .borderRadius (.Px 4) (.Px 4) (.Px 4) (.Px 4),
        .editorBackgroundColor
          (if b.is_in_submenu then .Background else .MenuBar)
          (some .MenuBarButtonHover) none ],
    children :=
      [ ⟨[ .editorUiElement,
           .text b.text,
           .editorTextColor .Text none none,
           .textFont 13 ], []⟩,
        ⟨[ .editorUiElement,
           .node { display := if b.shortcut_text.isSome then .Flex else .None },
           .text (b.shortcut_text.getD ""),
           .editorTextColor .FadedText none none,
           .textFont 13 ], []⟩ ] }

/-- The bundle the Tab rebuild produces (src/ui/elements.rs lines 238-317):
the tab row with its status dot, its name label and its embedded close
button (whose display and whose ClickAction both come from the same tab
value). -/
def tabBundle (t : Tab) : BundleDesc :=
  { components :=
      [ .editorUiElement,
        .button,
        .clickAction (.SelectTab t.index),
        .node { display := .Flex,
                height := .Px 38,
                align_items := .Center,
                column_gap := .Px 10,
                padding := ⟨.Px 15, .Px 15, .Px 10, .Px 10⟩ },
        .editorBackgroundColor
          (if t.is_active then .TabActive else .TabBar)
          (some (if t.is_active then .TabActive else .TabHover)) none,
        .borderRadius (.Px 4) (.Px 4) (.Px 0) (.Px 0) ],
    children :=
      [ ⟨[ .editorUiElement,
           .node { display := .Flex, height := .Px 18, width := .Px 18,
                   align_items := .Center, justify_content := .Center },
           .text "o",
           .backgroundColor (.srgbaHex "#378D09"),
           .borderRadius (.Px 2) (.Px 2) (.Px 2) (.Px 2) ], []⟩,
        ⟨[ .editorUiElement,
           .text t.name,
           .editorTextColor .Text none none,
           .textFont 13 ], []⟩,
        ⟨[ .editorUiElement,
           .button,
           .clickAction (.CloseTab t.index),
           .node { display := if t.is_active then .Flex else .None,
                   height := .Px 18, width := .Px 18,
                   align_items := .Center, justify_content := .Center } ],
         [ ⟨[ .editorUiElement,
              .text "x",
              .editorTextColor .Text none none,
              .textFont 13 ]⟩ ]⟩ ] }

/-- The bundle the ToolButton rebuild produces (src/ui/elements.rs
lines 379-419). -/
def toolButtonBundle (tb : ToolButton) : BundleDesc :=
  { components :=
      [ .editorUiElement,
        .node { display := .Flex, align_items := .Center,
                justify_content := .Center, width := .Px 25, height := .Px 25 },
        .editorBackgroundColor
          (if tb.is_active then .Background else .Button)
          (some .Background) none,
        .button,
        .clickAction (.SelectTool tb.action),
        .borderRadius (.Px 3) (.Px 3) (.Px 3) (.Px 3) ],
    children :=
      [ ⟨[ .editorUiElement,
           .node { width := .Px 20, height := .Px 20 },
           .imageNode tb.icon ], []⟩ ] }

/-- The bundle the StatusBar rebuild produces (src/ui/elements.rs
lines 426-447). -/
def statusBarBundle (s : StatusBar) : BundleDesc :=
  { components :=
      [ .editorUiElement,
        .node { display := .Flex, height := .Px 20, align_items := .Center,
                padding := UiRect.all (.Px 10) },
        .editorBackgroundColor .Background none none ],
    children :=
      [ ⟨[ .editorUiElement,
           .text ("Status: " ++ s.text),
           .editorTextColor .Text none none,
           .textFont 13 ], []⟩ ] }

/-- The bundle the CameraPreview rebuild produces (src/ui/elements.rs
lines 452-468). -/
def cameraPreviewBundle : BundleDesc :=
  { components :=
      [ .editorUiElement,
        .node { display := .Flex, flex_grow := 1, width := .Percent 100,
                align_items := .Center, justify_content := .Center } ],
    children := [] }

/-- The bundle the FpsCounter rebuild produces (src/ui/elements.rs
lines 475-501): a missing sample renders as the placeholder. -/
def fpsCounterBundle (f : FpsCounter) : BundleDesc :=
  { components :=
      [ .editorUiElement,
        .node { display := .Flex, height := .Px 20, justify_self := .End,
                align_items := .Center },
        .text ("FPS: " ++ (match f.fps with | some n => toString n | none => "--")),
        .textFont 13 ],
    children := [] }

/-- The value of one data component, over all six reactive widget kinds. -/
inductive WidgetData where
  | menuBarButton (b : MenuBarButton)
  | tab (t : Tab)
  | toolButton (tb : ToolButton)
  | statusBar (s : StatusBar)
  | fpsCounter (f : FpsCounter)
  | cameraPreview
deriving DecidableEq

/-- The rebuild bundle of each widget kind, as a function of the data
component's value alone. -/
def bundleOf : WidgetData → BundleDesc
  | .menuBarButton b => menuBarButtonBundle b
  | .tab t => tabBundle t
  | .toolButton tb => toolButtonBundle tb
  | .statusBar s => statusBarBundle s
  | .fpsCounter f => fpsCounterBundle f
  | .cameraPreview => cameraPreviewBundle

/-- The live ECS state of a widget entity: at most one component per
component type, plus the current child subtree. -/
structure EntityState where
  components : Nat → Option Component
  children : List ChildDesc

/-- EntityCommands::insert of one component: the slot of its type is
overwritten, every other slot is kept. -/
def insertComponent (m : Nat → Option Component) (c : Component) :
    Nat → Option Component :=
  fun k => if componentKind c = k then some c else m k

/-- EntityCommands::insert of a whole bundle: its components are inserted in
order. -/
def insertBundleComponents (m : Nat → Option Component) (cs : List Component) :
    Nat → Option Component :=
  cs.foldl insertComponent m

/-- One firing of a reactive_element rebuild system (src/ui/elements.rs
lines 22-37) on an entity whose data component changed to value v:
despawn_children removes the existing child subtree, then the bundle built
from v is inserted, which overwrites the bundle's component types and spawns
the bundle's children. -/
def reactiveRebuild (s : EntityState) (v : WidgetData) : EntityState :=
  { components := insertBundleComponents s.components (bundleOf v).components,
    children := (bundleOf v).children }

/-- The components the root editor-UI surface is spawned with (setup_ui,
src/ui/mod.rs lines 146-150): the EditorUi marker, a Button, and a
ClickAction bound to CloseMenus. -/
def setup_ui_root_components : List Component :=
  [ .editorUi, .button, .clickAction .CloseMenus ]

/-- A render viewport rectangle in physical pixels (bevy Viewport). -/
structure Viewport where
  physical_position : Nat × Nat
  physical_size : Nat × Nat
deriving DecidableEq

/-- A camera, reduced to the fields the viewport synchronizer touches, plus
an opaque tag distinguishing camera entities. -/
structure Camera where
  tag : Nat
  viewport : Option Viewport
deriving DecidableEq

/-- Rust's `as u32` conversion from f32, on the rational model of f32 values:
truncation toward zero, saturating at the ends.  For nonnegative inputs this
is the floor; every negative input lands on 0 either way. -/
def rustCastU32 (q : ℚ) : Nat :=
  min ⌊q⌋.toNat (2 ^ 32 - 1)

/-- update_camera_viewport (src/ui/mod.rs lines 392-414): from the preview
panel's center-anchored translation and unrounded size, the top-left corner
is center minus half the size, and every non-editor camera receives the same
integer-truncated rectangle.  f32 arithmetic is modelled on the rationals. -/
def update_camera_viewport (other_cameras : List Camera)
    (translation : ℚ × ℚ) (unrounded_size : ℚ × ℚ) : List Camera :=
  let center_x := translation.1
  let center_y := translation.2
  let width := unrounded_size.1
  let height := unrounded_size.2
  let top_left_x := center_x - width / 2
  let top_left_y := center_y - height / 2
  other_cameras.map
    (fun camera =>
      { camera with
        viewport := some
          { physical_position := (rustCastU32 top_left_x, rustCastU32 top_left_y),
            physical_size := (rustCastU32 width, rustCastU32 height) } })

/-- The role triple of the EditorBackgroundColor component of a bundle,
when the bundle carries one. -/
def bundleBackgroundRoles (b : BundleDesc) :
    Option (EditorColor × Option EditorColor × Option EditorColor) :=
  b.components.findSome?
    (fun c =>
      match c with
      | .editorBackgroundColor base hover pressed => some (base, hover, pressed)
      | _ => none)

/-- The display of the Node component of a child of a rebuilt subtree, when
the child carries one. -/
def childNodeDisplay (c : ChildDesc) : Option Display :=
  c.components.findSome?
    (fun comp =>
      match comp with
      | .node style => some style.display
      | _ => none)

/-- The component of the given type inside a bundle component list that
EntityCommands::insert leaves on the entity: the last one of that type, or
none when the bundle has no component of that type. -/
def lastOfKind : List Component → Nat → Option Component
  | [], _ => none
  | c :: rest, k =>
      match lastOfKind rest k with
      | some c' => some c'
      | none => if componentKind c = k then some c else none

theorem insertBundleComponents_apply (cs : List Component)
    (m : Nat → Option Component) (k : Nat) :
    insertBundleComponents m cs k =
      match lastOfKind cs k with
      | some c => some c
      | none => m k := by
  induction cs generalizing m with
  | nil => rfl
  | cons c rest ih =>
    show insertBundleComponents (insertComponent m c) rest k = _
    rw [ih]
    cases h : lastOfKind rest k with
    | some c' => simp [lastOfKind, h]
    | none =>
      by_cases hk : componentKind c = k <;> simp [lastOfKind, h, insertComponent, hk]

theorem insertBundleComponents_idem (cs : List Component)
    (m : Nat → Option Component) :
    insertBundleComponents (insertBundleComponents m cs) cs =
      insertBundleComponents m cs := by
  funext k
  rw [insertBundleComponents_apply, insertBundleComponents_apply]
  cases h : lastOfKind cs k with
  | some c => rfl
  | none => rfl

theorem menuBarDropdownStep_fst (ds : List (String × Visibility)) (e : UiEvent) :
    (menuBarDropdownStep ds e).map Prod.fst = ds.map Prod.fst := by
  cases e <;>
    (induction ds with
     | nil => rfl
     | cons d rest ih => simp_all [menuBarDropdownStep])

theorem menuBarDropdownStep_open_countP (ds : List (String × Visibility)) (id : String) :
    (menuBarDropdownStep ds (.OpenMenu id)).countP (fun p => p.2 == Visibility.Visible) =
      (ds.map Prod.fst).count id := by
  induction ds with
  | nil => rfl
  | cons d rest ih =>
    by_cases hd : d.1 = id <;>
      simp_all [menuBarDropdownStep, List.countP_cons, List.count_cons]

theorem menuBarDropdownStep_other (ds : List (String × Visibility)) (e : UiEvent)
    (he : e.isOpenMenu = false) :
    menuBarDropdownStep ds e = ds.map (fun d => (d.1, Visibility.Hidden)) := by
  cases e <;> first | rfl | simp [UiEvent.isOpenMenu] at he

theorem menuBarDropdownStep_other_hidden (ds : List (String × Visibility)) (e : UiEvent)
    (he : e.isOpenMenu = false) :
    ∀ p ∈ menuBarDropdownStep ds e, p.2 = Visibility.Hidden := by
  intro p hp
  rw [menuBarDropdownStep_other ds e he] at hp
  simp only [List.mem_map] at hp
  obtain ⟨d, _, h⟩ := hp
  rw [← h]

theorem menuBarDropdownStep_countP_le (ds : List (String × Visibility)) (e : UiEvent)
    (h1 : (ds.map Prod.fst).Nodup) :
    (menuBarDropdownStep ds e).countP (fun p => p.2 == Visibility.Visible) ≤ 1 := by
  by_cases he : e.isOpenMenu = true
  · obtain ⟨id, rfl⟩ : ∃ id, e = .OpenMenu id := by
      cases e <;> simp [UiEvent.isOpenMenu] at he ⊢
    rw [menuBarDropdownStep_open_countP]
    exact List.nodup_iff_count_le_one.mp h1 id
  · have h0 : (menuBarDropdownStep ds e).countP (fun p => p.2 == Visibility.Visible) = 0 := by
      rw [List.countP_eq_zero]
      intro p hp
      have hph := menuBarDropdownStep_other_hidden ds e (by simpa using he) p hp
      simp [hph]
    rw [h0]
    exact Nat.zero_le 1

theorem menu_fold_countP (events : List UiEvent) :
    ∀ ds : List (String × Visibility), (ds.map Prod.fst).Nodup →
      ds.countP (fun p => p.2 == Visibility.Visible) ≤ 1 →
      (menu_bar_dropdown_visibility ds events).countP (fun p => p.2 == Visibility.Visible) ≤ 1 := by
  induction events with
  | nil => intro ds _ h2; exact h2
  | cons e rest ih =>
    intro ds h1 _
    show (menu_bar_dropdown_visibility (menuBarDropdownStep ds e) rest).countP _ ≤ 1
    apply ih
    · rw [menuBarDropdownStep_fst]; exact h1
    · exact menuBarDropdownStep_countP_le ds e h1

theorem initialDropdowns_fst (ids : List String) :
    (initialDropdowns ids).map Prod.fst = ids := by
  induction ids with
  | nil => rfl
  | cons i rest ih => simp_all [initialDropdowns]

theorem initialDropdowns_countP (ids : List String) :
    (initialDropdowns ids).countP (fun p => p.2 == Visibility.Visible) = 0 := by
  induction ids with
  | nil => rfl
  | cons i rest ih => simp_all [initialDropdowns, List.countP_cons]

/-- C1: for every themed node, text and background color resolution both
follow the precedence Pressed-with-pressedRole, then Pressed-falls-back-to
hoverRole, then Hovered-with-hoverRole, then baseRole; in particular, with
base Background, a hover role set, no pressed role and interaction Pressed,
the resolved color is the hover role's concrete value in the theme table. -/
theorem c1_color_precedence :
    (∀ (m : List (EditorColor × Color)) (b : EditorColor) (h : Option EditorColor)
        (p : EditorColor),
        update_text_color m (some .Pressed) ⟨b, h, some p⟩ = lookupColor m p) ∧
    (∀ m b h, update_text_color m (some .Pressed) ⟨b, some h, none⟩ = lookupColor m h) ∧
    (∀ m b h p, update_text_color m (some .Hovered) ⟨b, some h, p⟩ = lookupColor m h) ∧
    (∀ m b h p, update_text_color m none ⟨b, h, p⟩ = lookupColor m b) ∧
    (∀ m b h p, update_text_color m (some .None) ⟨b, h, p⟩ = lookupColor m b) ∧
    (∀ m b, update_text_color m (some .Pressed) ⟨b, none, none⟩ = lookupColor m b) ∧
    (∀ m b p, update_text_color m (some .Hovered) ⟨b, none, p⟩ = lookupColor m b) ∧
    (∀ (m : List (EditorColor × Color)) (b : EditorColor) (h : Option EditorColor)
        (p : EditorColor),
        update_background_color m (some .Pressed) ⟨b, h, some p⟩ = lookupColor m p) ∧
    (∀ m b h, update_background_color m (some .Pressed) ⟨b, some h, none⟩ = lookupColor m h) ∧
    (∀ m b h p, update_background_color m (some .Hovered) ⟨b, some h, p⟩ = lookupColor m h) ∧
    (∀ m b h p, update_background_color m none ⟨b, h, p⟩ = lookupColor m b) ∧
    (∀ m b h p, update_background_color m (some .None) ⟨b, h, p⟩ = lookupColor m b) ∧
    (∀ m b, update_background_color m (some .Pressed) ⟨b, none, none⟩ = lookupColor m b) ∧
    (∀ m b p, update_background_color m (some .Hovered) ⟨b, none, p⟩ = lookupColor m b) ∧
    update_background_color defaultUiColors (some .Pressed)
        ⟨.Background, some .MenuBarButtonHover, none⟩ =
      some (.srgbaHex "#2C2C2C") ∧
    update_background_color defaultUiColors (some .Pressed)
        ⟨.Background, some .MenuBarButtonHover, none⟩ =
      lookupColor defaultUiColors .MenuBarButtonHover ∧
    update_text_color defaultUiColors (some .Pressed)
        ⟨.Text, some .MenuBarButtonHoverText, none⟩ =
      lookupColor defaultUiColors .MenuBarButtonHoverText := by
  refine ⟨?_, fun m b h => rfl, fun m b h p => rfl, ?_, ?_, fun m b => rfl, ?_,
    ?_, fun m b h => rfl, fun m b h p => rfl, ?_, ?_, fun m b => rfl, ?_,
    rfl, rfl, rfl⟩
  · intro m b h p; cases h <;> rfl
  · intro m b h p; cases h <;> cases p <;> rfl
  · intro m b h p; cases h <;> cases p <;> rfl
  · intro m b p; cases p <;> rfl
  · intro m b h p; cases h <;> rfl
  · intro m b h p; cases h <;> cases p <;> rfl
  · intro m b h p; cases h <;> cases p <;> rfl
  · intro m b p; cases p <;> rfl

/-- C4: the tab reducer (absent from src/, modelled from the spec) on tab
count 3 sends an unset selection to 0 on NextTab, then to 1 on a further
NextTab; PreviousTab from 0 wraps to 2; SelectTab 5 clamps to 2; and with
tab count 0 the selection stays unset for every event. -/
theorem c4_tab_reducer :
    tab_reducer_step 3 none .NextTab = some 0 ∧
    tab_reducer_step 3 (some 0) .NextTab = some 1 ∧
    tab_reducer_step 3 (some 0) .PreviousTab = some 2 ∧
    tab_reducer_step 3 none (.SelectTab 5) = some 2 ∧
    ∀ e : UiEvent, tab_reducer_step 0 none e = none := by
  exact ⟨rfl, rfl, rfl, rfl, fun e => rfl⟩

/-- C5: a clickable entity's bound event is emitted exactly on the ticks its
interaction state transitions into Pressed, and an unchanged interaction
state (in particular one that stays Pressed) emits nothing. -/
theorem c5_click_edge_trigger :
    ∀ (action : UiEvent) (prev cur : Interaction),
      (handle_ui_events [(action, prev, cur)] = [action] ↔
        cur = Interaction.Pressed ∧ prev ≠ Interaction.Pressed) ∧
      handle_ui_events [(action, prev, prev)] = [] := by
  intro action prev cur
  constructor
  · cases prev <;> cases cur <;> simp [handle_ui_events]
  · cases prev <;> rfl

/-- C6: for every data-component kind and value, the rebuild is a pure
function of the value: the resulting child subtree does not depend on the
entity's prior state, and rebuilding a second time with the unchanged value
leaves the entity exactly as the first rebuild did (no drift, no duplicate
children). -/
theorem c6_rebuild_deterministic :
    ∀ (v : WidgetData) (s s₂ : EntityState),
      reactiveRebuild (reactiveRebuild s v) v = reactiveRebuild s v ∧
      (reactiveRebuild s v).children = (reactiveRebuild s₂ v).children := by
  intro v s s₂
  constructor
  · show EntityState.mk _ _ = EntityState.mk _ _
    rw [EntityState.mk.injEq]
    exact ⟨insertBundleComponents_idem _ _, rfl⟩
  · rfl

/-- C8: a single Tab rebuild couples the embedded close button's display and
the background role pair to the is_active flag: active gives the close
button Display::Flex and background roles (TabActive, TabActive hover),
inactive gives Display::None and (TabBar, TabHover hover). -/
theorem c8_tab_active_coupling :
    ∀ t : Tab,
      ((tabBundle t).children[2]?.bind childNodeDisplay) =
        some (if t.is_active then Display.Flex else Display.None) ∧
      bundleBackgroundRoles (tabBundle t) =
        some (if t.is_active then (EditorColor.TabActive, some EditorColor.TabActive,
                (none : Option EditorColor))
              else (EditorColor.TabBar, some EditorColor.TabHover, none)) := by
  intro t
  cases t with
  | mk index name act => cases act <;> exact ⟨rfl, rfl⟩

/-- C9: the root editor-UI surface spawned by setup_ui is itself a clickable
entity bound to CloseMenus, so a press beginning on the UI background emits
CloseMenus on that tick, and the dropdown reducer hides every dropdown on
CloseMenus. -/
theorem c9_root_closes_menus :
    Component.clickAction UiEvent.CloseMenus ∈ setup_ui_root_components ∧
    Component.button ∈ setup_ui_root_components ∧
    (∀ prev : Interaction,
      handle_ui_events [(UiEvent.CloseMenus, prev, Interaction.Pressed)] =
        if prev == Interaction.Pressed then [] else [UiEvent.CloseMenus]) ∧
    (∀ dropdowns : List (String × Visibility),
      ((menuBarDropdownStep dropdowns UiEvent.CloseMenus).all
          (fun d => d.2 == Visibility.Hidden)) = true) := by
  refine ⟨?_, ?_, ?_, ?_⟩
  · simp [setup_ui_root_components]
  · simp [setup_ui_root_components]
  · intro prev; cases prev <;> rfl
  · intro dropdowns
    simp [menuBarDropdownStep]

/-- C10: the default theme table covers every role of the EditorColor
enumeration that colors.rs declares, but not the FadedText role that
elements.rs assigns to the menu-bar shortcut label: exactly that one lookup
misses, so the fail-fast indexing of the table is reachable there. -/
theorem c10_role_lookup :
    ∀ c : EditorColor,
      (lookupColor defaultUiColors c).isSome = (c != EditorColor.FadedText) := by
  intro c
  cases c <;> rfl

/-- C2: per tick, every shortcut-table entry fires exactly as often as it
occurs in the table with its whole chord held and at least one chord key
just pressed; a tick on which every chord key was already held the previous
tick has no just-pressed chord key; and concretely, holding Ctrl and then
pressing N fires FileNew exactly once on the completing tick and zero times
on the following tick with both keys still held. -/
theorem c2_shortcut_edge :
    (∀ (table : List (UiEvent × Shortcut)) (keys : ButtonInputState) (e : UiEvent),
      (handle_shortcuts table keys).count e =
        table.countP
          (fun p => p.1 == e &&
            (keys.all_pressed p.2.keys && keys.any_just_pressed p.2.keys))) ∧
    (∀ prev cur chord : List KeyCode,
      chord.all (fun k => prev.contains k) = true →
      (keyTick prev cur).any_just_pressed chord = false) ∧
    (handle_shortcuts (defaultShortcuts false)
        (keyTick [.ControlLeft] [.ControlLeft, .KeyN])).count .FileNew = 1 ∧
    (handle_shortcuts (defaultShortcuts false)
        (keyTick [.ControlLeft, .KeyN] [.ControlLeft, .KeyN])).count .FileNew = 0 := by
  refine ⟨?_, ?_, by decide, by decide⟩
  · intro table keys e
    induction table with
    | nil => rfl
    | cons p rest ih =>
      simp only [handle_shortcuts] at ih ⊢
      rw [List.filter_cons]
      cases hf : (keys.all_pressed p.2.keys && keys.any_just_pressed p.2.keys) <;>
        simp [List.countP_cons, List.count_cons, hf, ih]
  · intro prev cur chord hall
    rw [List.all_eq_true] at hall
    simp only [ButtonInputState.any_just_pressed, keyTick]
    rw [List.any_eq_false]
    intro k hk hcontra
    have hp : prev.contains k = true := hall k hk
    have hmem := List.elem_iff.mp hcontra
    rw [List.mem_filter] at hmem
    have hq : (!prev.contains k) = true := hmem.2
    rw [hp] at hq
    simp at hq

/-- Witness for C2: the held-chord suppression applied on the tick after
Ctrl+N completed, with both keys still held. -/
theorem c2_shortcut_edge_witness :
    (keyTick [KeyCode.ControlLeft, KeyCode.KeyN]
        [KeyCode.ControlLeft, KeyCode.KeyN]).any_just_pressed
      [KeyCode.ControlLeft, KeyCode.KeyN] = false :=
  c2_shortcut_edge.2.1 [KeyCode.ControlLeft, KeyCode.KeyN]
    [KeyCode.ControlLeft, KeyCode.KeyN] [KeyCode.ControlLeft, KeyCode.KeyN]
    (by decide)

/-- C3: one OpenMenu event makes exactly the dropdowns with the matching id
visible; any other event hides every dropdown; every dropdown starts hidden;
hence, with unique dropdown ids, at most one dropdown is visible after any
event sequence; and concretely OpenMenu "file" then OpenMenu "edit" leaves
exactly the "edit" dropdown visible, and a following SelectTab 1 hides
both. -/
theorem c3_menu_exclusivity :
    (∀ (ds : List (String × Visibility)) (id : String) (p : String × Visibility),
        p ∈ menuBarDropdownStep ds (.OpenMenu id) →
        (p.2 = Visibility.Visible ↔ p.1 = id)) ∧
    (∀ (ds : List (String × Visibility)) (e : UiEvent), e.isOpenMenu = false →
        ∀ p ∈ menuBarDropdownStep ds e, p.2 = Visibility.Hidden) ∧
    (∀ (ids : List String), ∀ p ∈ initialDropdowns ids, p.2 = Visibility.Hidden) ∧
    (∀ (ids : List String) (events : List UiEvent), ids.Nodup →
        (menu_bar_dropdown_visibility (initialDropdowns ids) events).countP
            (fun p => p.2 == Visibility.Visible) ≤ 1) ∧
    menu_bar_dropdown_visibility (initialDropdowns ["file", "edit"])
        [.OpenMenu "file", .OpenMenu "edit"] =
      [("file", Visibility.Hidden), ("edit", Visibility.Visible)] ∧
    menu_bar_dropdown_visibility (initialDropdowns ["file", "edit"])
        [.OpenMenu "file", .OpenMenu "edit", .SelectTab 1] =
      [("file", Visibility.Hidden), ("edit", Visibility.Hidden)] := by
  refine ⟨?_, menuBarDropdownStep_other_hidden, ?_, ?_, by decide, by decide⟩
  · intro ds id p hp
    simp only [menuBarDropdownStep, List.mem_map] at hp
    obtain ⟨d, -, h⟩ := hp
    rw [← h]
    by_cases hd : d.1 = id <;> simp [hd]
  · intro ids p hp
    simp only [initialDropdowns, List.mem_map] at hp
    obtain ⟨i, -, h⟩ := hp
    rw [← h]
  · intro ids events hids
    apply menu_fold_countP
    · rw [initialDropdowns_fst]; exact hids
    · rw [initialDropdowns_countP]; exact Nat.zero_le 1

/-- Witness for C3: the exclusivity bound evaluated on the two bootstrap-like
dropdown ids and the spec's event sequence. -/
theorem c3_menu_exclusivity_witness :
    (menu_bar_dropdown_visibility (initialDropdowns ["file", "edit"])
        [.OpenMenu "file", .OpenMenu "edit", .SelectTab 1]).countP
        (fun p => p.2 == Visibility.Visible) ≤ 1 :=
  c3_menu_exclusivity.2.2.2.1 ["file", "edit"]
    [.OpenMenu "file", .OpenMenu "edit", .SelectTab 1] (by decide)

/-- C7: on a preview-panel transform change, every non-editor camera
receives the same viewport rectangle, computed as top-left = center minus
half the unrounded size with fractional coordinates truncated (not rounded)
to integers; a panel centered at (500, 300) with size (400, 200) yields
top-left (300, 200) and size (400, 200), and fractional centers truncate
downward rather than round. -/
theorem rustCastU32_values :
    rustCastU32 ((500 : ℚ) - 400 / 2) = 300 ∧ rustCastU32 ((300 : ℚ) - 200 / 2) = 200 ∧
    rustCastU32 ((400 : ℚ)) = 400 ∧ rustCastU32 ((200 : ℚ)) = 200 ∧
    rustCastU32 ((500.9 : ℚ) - 400 / 2) = 300 ∧
    rustCastU32 ((300.4 : ℚ) - 200 / 2) = 200 := by
  refine ⟨?_, ?_, ?_, ?_, ?_, ?_⟩ <;>
    (unfold rustCastU32
     norm_num
     all_goals decide)

theorem update_viewport_eval_center :
    update_camera_viewport [⟨0, none⟩] ((500 : ℚ), 300) (400, 200) =
      [⟨0, some ⟨(300, 200), (400, 200)⟩⟩] := by
  obtain ⟨h1, h2, h3, h4, -, -⟩ := rustCastU32_values
  simp [update_camera_viewport, h1, h2, h3, h4]

theorem update_viewport_eval_fractional :
    update_camera_viewport [⟨0, none⟩, ⟨1, none⟩] ((500.9 : ℚ), 300.4) (400, 200) =
      [⟨0, some ⟨(300, 200), (400, 200)⟩⟩, ⟨1, some ⟨(300, 200), (400, 200)⟩⟩] := by
  obtain ⟨-, -, h3, h4, h5, h6⟩ := rustCastU32_values
  simp [update_camera_viewport, h3, h4, h5, h6]

theorem c7_viewport_projection :
    (∀ (cams : List Camera) (tr sz : ℚ × ℚ) (c₁ c₂ : Camera),
        c₁ ∈ update_camera_viewport cams tr sz →
        c₂ ∈ update_camera_viewport cams tr sz →
        c₁.viewport = c₂.viewport) ∧
    (∀ (cams : List Camera) (tr sz : ℚ × ℚ), ∀ c ∈ update_camera_viewport cams tr sz,
        c.viewport = some
          { physical_position :=
              (rustCastU32 (tr.1 - sz.1 / 2), rustCastU32 (tr.2 - sz.2 / 2)),
            physical_size := (rustCastU32 sz.1, rustCastU32 sz.2) }) ∧
    update_camera_viewport [⟨0, none⟩] (500, 300) (400, 200) =
      [⟨0, some ⟨(300, 200), (400, 200)⟩⟩] ∧
    update_camera_viewport [⟨0, none⟩, ⟨1, none⟩] (500.9, 300.4) (400, 200) =
      [⟨0, some ⟨(300, 200), (400, 200)⟩⟩, ⟨1, some ⟨(300, 200), (400, 200)⟩⟩] := by
  have hform : ∀ (cams : List Camera) (tr sz : ℚ × ℚ),
      ∀ c ∈ update_camera_viewport cams tr sz,
      c.viewport = some
        { physical_position :=
            (rustCastU32 (tr.1 - sz.1 / 2), rustCastU32 (tr.2 - sz.2 / 2)),
          physical_size := (rustCastU32 sz.1, rustCastU32 sz.2) } := by
    intro cams tr sz c hc
    simp only [update_camera_viewport, List.mem_map] at hc
    obtain ⟨a, -, h⟩ := hc
    rw [← h]
  refine ⟨?_, hform, update_viewport_eval_center, update_viewport_eval_fractional⟩
  intro cams tr sz c₁ c₂ h₁ h₂
  rw [hform cams tr sz c₁ h₁, hform cams tr sz c₂ h₂]

/-- Witness for C7: the common-rectangle property applied to two concrete
cameras under the concrete panel transform. -/
theorem c7_viewport_projection_witness :
    Camera.viewport ⟨0, some ⟨(300, 200), (400, 200)⟩⟩ =
      Camera.viewport ⟨1, some ⟨(300, 200), (400, 200)⟩⟩ :=
  c7_viewport_projection.1 [⟨0, none⟩, ⟨1, none⟩] (500.9, 300.4) (400, 200)
    ⟨0, some ⟨(300, 200), (400, 200)⟩⟩ ⟨1, some ⟨(300, 200), (400, 200)⟩⟩
    (by rw [update_viewport_eval_fractional]; decide)
    (by rw [update_viewport_eval_fractional]; decide)

end BevyUi
